import Mathlib

/-!
Verification development for the PPO agent of `src/agents/PPOAgent.py`.

Numeric values are modelled by `ℚ`.  The external collaborators that the spec
treats as opaque (actor/critic networks, the torch RNG, the square-root and
exponential primitives, the buffer's reward normalization) are bundled in the
`Ext` structure as abstract functions.  The rollout buffer, the GAE recursion
and the running state normalizer are not present under `src/`, so they are
modelled from the spec (sections 4.1 and 4.2); every such definition carries a
doc comment starting with `Modelled from the spec:`.
-/

set_option maxRecDepth 100000

namespace RegenPPO

/-- Elementwise application of a ternary function to three lists, truncating to
the shortest, in the manner of `List.zipWith`. -/
def zw3 (f : ℚ → ℚ → ℚ → ℚ) : List ℚ → List ℚ → List ℚ → List ℚ
  | x :: xs, y :: ys, z :: zs => f x y z :: zw3 f xs ys zs
  | _, _, _ => []

/-- Mean of a list of rationals, as computed by `torch.mean` on a tensor. -/
def tmean (xs : List ℚ) : ℚ := xs.sum / (xs.length : ℚ)

/-- Standard deviation with Bessel's correction (`torch.std` default),
with the square root taken by the abstract primitive `sq`. -/
def tstd (sq : ℚ → ℚ) (xs : List ℚ) : ℚ :=
  let m := tmean xs
  sq ((xs.map (fun x => (x - m) ^ 2)).sum / ((xs.length - 1 : ℕ) : ℚ))

/-- Scalar clamp, as `torch.clamp(x, lo, hi)`. -/
def clampQ (lo hi x : ℚ) : ℚ := min (max x lo) hi

/-- Modelled from the spec: a stored transition of the rollout buffer
(`src/buffers/ppo_buffer.py` is not under `src/`; spec section 3). -/
structure Transition where
  state : List ℚ
  action : ℚ
  reward : ℚ
  value : ℚ
  log_prob : ℚ
  done : Bool

/-- Modelled from the spec: running state of `RunningNormalizer`
(`src/agents/utils/state_normalizer.py` is not under `src/`; spec section 4.1):
count, per-dimension mean and per-dimension M2 of Welford's algorithm. -/
structure RunningNormalizer where
  count : ℕ
  mean : List ℚ
  m2 : List ℚ

/-- Modelled from the spec: a single-sample Welford fold, the only mutator of
the normalizer statistics (spec section 4.1). -/
def welfordUpdate (norm : RunningNormalizer) (x : List ℚ) : RunningNormalizer :=
  let c := norm.count + 1
  let delta := List.zipWith (fun xi mi => xi - mi) x norm.mean
  let mean2 := List.zipWith (fun mi di => mi + di / (c : ℚ)) norm.mean delta
  let delta2 := List.zipWith (fun xi mi => xi - mi) x mean2
  { count := c, mean := mean2,
    m2 := List.zipWith (fun a b => a + b) norm.m2
      (List.zipWith (fun a b => a * b) delta delta2) }

/-- Epsilon guarding the denominator of the normalization (spec section 4.1). -/
def epsQ : ℚ := 1 / 100000000

/-- Modelled from the spec: `RunningNormalizer.normalize`, pure in the
statistics: `(x - mean) / sqrt(variance/count + eps)` (spec section 4.1), with
the square root taken by the abstract primitive `sq`. -/
def normalize (sq : ℚ → ℚ) (norm : RunningNormalizer) (x : List ℚ) : List ℚ :=
  zw3 (fun xi mi vi => (xi - mi) / sq (vi / (norm.count : ℚ) + epsQ))
    x norm.mean (norm.m2.map (fun v => v / (norm.count : ℚ)))

/-- Modelled from the spec: the backward GAE recursion of
`PPOBuffer.compute_gae` (spec section 4.2), returning the final accumulator and
the advantage list.  At the last index the bootstrap `next_value` is used; at
every other index the value at the following index is used. -/
def gaeAdv (gamma lam next_value : ℚ) : List ℚ → List ℚ → List Bool → ℚ × List ℚ
  | r :: rs, v :: vs, d :: ds =>
      let prev := gaeAdv gamma lam next_value rs vs ds
      let next_v := match vs with
        | [] => next_value
        | v2 :: _ => v2
      let mask : ℚ := if d then 0 else 1
      let delta := r + gamma * next_v * mask - v
      let g := delta + gamma * lam * mask * prev.1
      (g, g :: prev.2)
  | _, _, _ => (0, [])

/-- Modelled from the spec: `PPOBuffer.compute_gae` (spec section 4.2);
`returns[t] = advantages[t] + values[t]`. -/
def compute_gae (rewards values : List ℚ) (dones : List Bool)
    (next_value gamma lam : ℚ) : List ℚ × List ℚ :=
  let advantages := (gaeAdv gamma lam next_value rewards values dones).2
  (advantages, List.zipWith (fun a v => a + v) advantages values)

/-- GAE recursion driven by an explicit per-position next-value list: the
next-step value used at position `t` is `nextValues[t]`.  This is the
formulation the spec describes (value array shifted by one timestep with the
bootstrap substituted at the last position). -/
def gaeNvAdv (gamma lam : ℚ) : List ℚ → List ℚ → List ℚ → List Bool → ℚ × List ℚ
  | r :: rs, v :: vs, nv :: nvs, d :: ds =>
      let prev := gaeNvAdv gamma lam rs vs nvs ds
      let mask : ℚ := if d then 0 else 1
      let delta := r + gamma * nv * mask - v
      let g := delta + gamma * lam * mask * prev.1
      (g, g :: prev.2)
  | _, _, _, _ => (0, [])

/-- GAE advantages and returns computed from an explicit next-value list. -/
def gaeFromNextValues (rewards values nextValues : List ℚ) (dones : List Bool)
    (gamma lam : ℚ) : List ℚ × List ℚ :=
  let advantages := (gaeNvAdv gamma lam rewards values nextValues dones).2
  (advantages, List.zipWith (fun a v => a + v) advantages values)

/-- Column-oriented view of the buffer contents, as returned by
`PPOBuffer.get` and consumed by `_perform_update`. -/
structure BufferData where
  states : List (List ℚ)
  actions : List ℚ
  values : List ℚ
  log_probs : List ℚ
  normalized_rewards : List ℚ
  dones : List Bool

/-- Data of one minibatch, as seen by the backward pass and the two optimizer
steps (the gradient computation itself is an opaque external collaborator). -/
structure Minibatch where
  states : List (List ℚ)
  actions : List ℚ
  old_values : List ℚ
  old_log_probs : List ℚ
  rewards : List ℚ
  advantages : List ℚ
  returns1 : List ℚ
  dones : List Bool

/-- External collaborators, opaque per spec sections 1 and 6: the critic's
forward pass, the actor's distribution (per-state log-prob and entropy), action
sampling (consuming one RNG draw), the combined backward/clip/optimizer step,
`torch.randperm`, the square-root and exponential primitives, and the buffer's
reward normalization. -/
structure Ext (θ : Type) where
  criticV : θ → List ℚ → ℚ
  logProbAt : θ → List ℚ → ℚ → ℚ
  entropyAt : θ → List ℚ → ℚ
  sample : θ → List ℚ → ℕ → ℚ × ℚ
  gradStep : θ → ℚ → Minibatch → θ
  randperm : ℕ → ℕ → List ℕ
  sqrtFn : ℚ → ℚ
  expFn : ℚ → ℚ
  rewardNorm : List ℚ → List ℚ

/-- Configuration surface consumed by the PPO update (spec section 6). -/
structure PPOConfig where
  gamma : ℚ
  clip_range : ℚ
  ent_coef : ℚ
  vf_coef : ℚ
  num_epochs : ℕ
  batch_size : ℕ

/-- Threshold below which `update_networks` no-ops
(`PPOAgent.__init__`, line 88: `batch_size * 2`). -/
def minimumRequiredSamples (cfg : PPOConfig) : ℕ := cfg.batch_size * 2

/-- State of a `PPOAgent`: normalizer, network/optimizer parameters `θ`,
buffer contents and capacity, scheduler step counts, learning rates, a count of
performed optimizer steps, and the RNG position. -/
structure AgentState (θ : Type) where
  normalizer : RunningNormalizer
  params : θ
  buffer : List Transition
  bufferCapacity : ℕ
  actorSchedCount : ℕ
  criticSchedCount : ℕ
  actorLr : ℚ
  criticLr : ℚ
  optSteps : ℕ
  rng : ℕ

/-- Modelled from the spec: `PPOBuffer.store` appends, rejecting when the
buffer is at capacity (spec section 4.2 recommends rejecting with
`BufferFullError`; `none` models the raised error). -/
def bufStore (cap : ℕ) (buf : List Transition) (t : Transition) :
    Option (List Transition) :=
  if buf.length < cap then some (buf ++ [t]) else none

/-- Modelled from the spec: `PPOBuffer.get` returns all stored transitions as
column-oriented arrays in temporal order, without clearing (spec section 4.2);
the rewards column is produced by the buffer's opaque reward normalization. -/
def bufGet (rewardNorm : List ℚ → List ℚ) (buf : List Transition) : BufferData :=
  { states := buf.map (fun t => t.state),
    actions := buf.map (fun t => t.action),
    values := buf.map (fun t => t.value),
    log_probs := buf.map (fun t => t.log_prob),
    normalized_rewards := rewardNorm (buf.map (fun t => t.reward)),
    dones := buf.map (fun t => t.done) }

/-- Metric values are floats or strings in the returned Python dict. -/
inductive MVal where
  | num (q : ℚ)
  | str (s : String)
  deriving DecidableEq

/-- A metrics record is the returned Python dict, as an association list. -/
abbrev Metrics := List (String × MVal)

/-- One step of `torch.optim.lr_scheduler.StepLR(step_size=100, gamma=0.7)`:
the step count advances by one and the learning rate decays by 0.7 every 100
steps (`PPOAgent.__init__`, lines 112-113). -/
def schedStep (count : ℕ) (lr : ℚ) : ℕ × ℚ :=
  let c := count + 1
  (c, if c % 100 = 0 then lr * (7 / 10) else lr)

/-- Per-minibatch advantages and returns of `_perform_update` (lines 234-249):
`compute_gae` on the minibatch's rewards, current values and dones, with the
critic's value of the normalized final state as bootstrap and `gamma` from the
configuration (lambda left at its default 1). -/
def mbAdvRet {θ : Type} (ext : Ext θ) (cfg : PPOConfig) (p : θ)
    (norm : RunningNormalizer) (finalState rewards values : List ℚ)
    (dones : List Bool) : List ℚ × List ℚ :=
  let final_value := ext.criticV p (normalize ext.sqrtFn norm finalState)
  compute_gae rewards values dones final_value cfg.gamma 1

/-- Clipped policy loss of `_perform_update` (lines 260-263):
`-mean(min(ratio * adv, clamp(ratio, 1-eps, 1+eps) * adv))` with
`ratio = exp(new_log_prob - old_log_prob)`. -/
def policyLossOf (e : ℚ → ℚ) (eps : ℚ)
    (log_probs old_log_probs advantages : List ℚ) : ℚ :=
  let ratioVals := List.zipWith (fun lp olp => e (lp - olp)) log_probs old_log_probs
  let policy_loss_1 := List.zipWith (fun x a => x * a) ratioVals advantages
  let clamped := ratioVals.map (clampQ (1 - eps) (1 + eps))
  let policy_loss_2 := List.zipWith (fun x a => x * a) clamped advantages
  (- tmean (List.zipWith min policy_loss_1 policy_loss_2))

/-- Dual-clipped value loss of `_perform_update` (lines 266-269). -/
def valueLossOf (eps : ℚ) (values old_values returns1 : List ℚ) : ℚ :=
  let value_pred_clipped :=
    List.zipWith (fun ov v => ov + clampQ (-eps) eps (v - ov)) old_values values
  let value_losses := List.zipWith (fun v ret => (v - ret) ^ 2) values returns1
  let value_losses_clipped :=
    List.zipWith (fun vpc ret => (vpc - ret) ^ 2) value_pred_clipped returns1
  (1 / 2) * tmean (List.zipWith max value_losses value_losses_clipped)

/-- Total loss of `_perform_update` (line 272), handed to the backward pass. -/
def totalLossOf (cfg : PPOConfig) (policy_loss value_loss entropyVal : ℚ) : ℚ :=
  policy_loss + cfg.vf_coef * value_loss - cfg.ent_coef * entropyVal

/-- Running accumulators of the epoch/minibatch loop of `_perform_update`
(lines 199-206), together with the evolving parameters and the count of
optimizer-step blocks executed. -/
structure PassState (θ : Type) where
  params : θ
  optSteps : ℕ
  update_count : ℕ
  total_policy_loss : ℚ
  total_value_loss : ℚ
  total_entropy : ℚ
  total_value_mean : ℚ
  total_value_std : ℚ
  total_advantage_mean : ℚ
  total_advantage_std : ℚ

/-- Minibatch start offsets of `range(0, n, bs)` in the inner loop of
`_perform_update` (line 211). -/
def chunkStarts (n bs : ℕ) : List ℕ :=
  (List.range ((n + bs - 1) / bs)).map (fun i => i * bs)

/-- One iteration of the inner minibatch loop of `_perform_update`
(lines 211-288): skip the minibatch when it is smaller than 80% of the target
batch size, otherwise recompute values/log-probs/entropy with the current
parameters, compute GAE advantages and returns, compute the clipped losses,
run the backward/clip/optimizer step, and accumulate the statistics.
The `next_values` tensor of lines 238-240 is built and never used, as in the
source. -/
def minibatchStep {θ : Type} (ext : Ext θ) (cfg : PPOConfig) (data : BufferData)
    (normalized_states : List (List ℚ)) (finalState : List ℚ)
    (norm : RunningNormalizer) (indices : List ℕ) (n bs : ℕ)
    (ps : PassState θ) (start : ℕ) : PassState θ :=
  let e := min (start + bs) n
  if ((e - start : ℕ) : ℚ) < (bs : ℚ) * (4 / 5) then ps
  else
    let batch_indices := (indices.drop start).take (e - start)
    let states := batch_indices.map (fun i => normalized_states.getD i [])
    let actions := batch_indices.map (fun i => data.actions.getD i 0)
    let old_values := batch_indices.map (fun i => data.values.getD i 0)
    let old_log_probs := batch_indices.map (fun i => data.log_probs.getD i 0)
    let rewards := batch_indices.map (fun i => data.normalized_rewards.getD i 0)
    let dones := batch_indices.map (fun i => data.dones.getD i false)
    let values := states.map (ext.criticV ps.params)
    let log_probs := List.zipWith (ext.logProbAt ps.params) states actions
    let entropyVal := tmean (states.map (ext.entropyAt ps.params))
    let final_value := ext.criticV ps.params (normalize ext.sqrtFn norm finalState)
    let next_values := values.drop 1 ++ [final_value]
    let ar := mbAdvRet ext cfg ps.params norm finalState rewards values dones
    let advantages := ar.1
    let returns1 := ar.2
    let policy_loss := policyLossOf ext.expFn cfg.clip_range log_probs old_log_probs advantages
    let value_loss := valueLossOf cfg.clip_range values old_values returns1
    let loss := totalLossOf cfg policy_loss value_loss entropyVal
    let params2 := ext.gradStep ps.params loss
      { states := states, actions := actions, old_values := old_values,
        old_log_probs := old_log_probs, rewards := rewards,
        advantages := advantages, returns1 := returns1, dones := dones }
    { params := params2, optSteps := ps.optSteps + 1,
      update_count := ps.update_count + 1,
      total_policy_loss := ps.total_policy_loss + policy_loss,
      total_value_loss := ps.total_value_loss + value_loss,
      total_entropy := ps.total_entropy + entropyVal,
      total_value_mean := ps.total_value_mean + tmean values,
      total_value_std := ps.total_value_std + tstd ext.sqrtFn values,
      total_advantage_mean := ps.total_advantage_mean + tmean advantages,
      total_advantage_std := ps.total_advantage_std + tstd ext.sqrtFn advantages }

/-- Metrics dict returned by `_perform_update` when `update_count == 0`
(lines 290-302).  It carries no `skipped_reason` entry. -/
def zeroMetrics (bs : ℕ) (lr : ℚ) : Metrics :=
  [("policy_loss", MVal.num 0), ("value_loss", MVal.num 0),
   ("entropy", MVal.num 0), ("batch_size_used", MVal.num (bs : ℚ)),
   ("updates_performed", MVal.num 0), ("value_mean", MVal.num 0),
   ("value_std", MVal.num 0), ("advantage_mean", MVal.num 0),
   ("advantage_std", MVal.num 0), ("learning_rate", MVal.num lr)]

/-- Metrics dict returned by `_perform_update` when `update_count > 0`
(lines 304-315).  The `advantage_mean` entry is computed from
`total_value_mean`, exactly as in line 312 of the source. -/
def fullMetrics {θ : Type} (bs : ℕ) (lr : ℚ) (ps : PassState θ) : Metrics :=
  let c : ℚ := (ps.update_count : ℚ)
  [("policy_loss", MVal.num (ps.total_policy_loss / c)),
   ("value_loss", MVal.num (ps.total_value_loss / c)),
   ("entropy", MVal.num (ps.total_entropy / c)),
   ("batch_size_used", MVal.num (bs : ℚ)),
   ("updates_performed", MVal.num (ps.update_count : ℚ)),
   ("value_mean", MVal.num (ps.total_value_mean / c)),
   ("value_std", MVal.num (ps.total_value_std / c)),
   ("advantage_mean", MVal.num (ps.total_value_mean / c)),
   ("advantage_std", MVal.num (ps.total_advantage_std / c)),
   ("learning_rate", MVal.num lr)]

/-- The epoch loop of `_perform_update` (lines 208-315).  The source's two
`return` statements sit inside the `for _ in range(num_epochs)` body, so every
iteration that runs ends the function; when `num_epochs` is zero the loop body
never runs and the Python function falls through, returning `None` (modelled by
`none`).  Each iteration consumes one RNG draw for `torch.randperm`. -/
def epochLoop {θ : Type} (ext : Ext θ) (cfg : PPOConfig) (data : BufferData)
    (normalized_states : List (List ℚ)) (finalState : List ℚ)
    (norm : RunningNormalizer) (n bs : ℕ) (lr : ℚ) :
    ℕ → ℕ → PassState θ → ℕ × PassState θ × Option Metrics
  | 0, rng, ps => (rng, ps, none)
  | _ + 1, rng, ps =>
      let indices := ext.randperm rng n
      let ps2 := (chunkStarts n bs).foldl
        (minibatchStep ext cfg data normalized_states finalState norm indices n bs) ps
      if ps2.update_count = 0 then (rng + 1, ps2, some (zeroMetrics bs lr))
      else (rng + 1, ps2, some (fullMetrics bs lr ps2))

/-- `PPOAgent._perform_update` (lines 185-315): read the buffer, normalize all
stored states once with the current statistics, and run the epoch loop.  Only
the parameters, the optimizer-step count and the RNG position of the agent
state change. -/
def performUpdate {θ : Type} (ext : Ext θ) (cfg : PPOConfig) (st : AgentState θ)
    (finalState : List ℚ) (bs : ℕ) : AgentState θ × Option Metrics :=
  let data := bufGet ext.rewardNorm st.buffer
  let normalized_states := data.states.map (normalize ext.sqrtFn st.normalizer)
  let n := st.buffer.length
  let init : PassState θ := ⟨st.params, st.optSteps, 0, 0, 0, 0, 0, 0, 0, 0⟩
  let r := epochLoop ext cfg data normalized_states finalState st.normalizer
    n bs st.actorLr cfg.num_epochs st.rng init
  ({ st with params := r.2.1.params, optSteps := r.2.1.optSteps, rng := r.1 }, r.2.2)

/-- `PPOAgent.update_networks` (lines 317-332): below the minimum sample
threshold, no-op and report `insufficient_data`; otherwise perform the update
with `min(batch_size, len(buffer))`, step both schedulers once and clear the
buffer. -/
def update_networks {θ : Type} (ext : Ext θ) (cfg : PPOConfig) (st : AgentState θ)
    (finalState : List ℚ) : AgentState θ × Option Metrics :=
  if st.buffer.length < minimumRequiredSamples cfg then
    (st, some [("policy_loss", MVal.num 0), ("value_loss", MVal.num 0),
      ("entropy", MVal.num 0),
      ("skipped_reason", MVal.str "insufficient_data"),
      ("available_samples", MVal.num (st.buffer.length : ℚ))])
  else
    let adjusted_batch_size := min cfg.batch_size st.buffer.length
    let res := performUpdate ext cfg st finalState adjusted_batch_size
    let st2 := res.1
    let sa := schedStep st2.actorSchedCount st2.actorLr
    let sc := schedStep st2.criticSchedCount st2.criticLr
    ({ st2 with
        actorSchedCount := sa.1
        actorLr := sa.2
        criticSchedCount := sc.1
        criticLr := sc.2
        buffer := [] }, res.2)

/-- `PPOAgent.act` (lines 122-138): normalize the state with the current
statistics (no running-stat update) and sample an action from the current
policy, consuming one RNG draw. -/
def act {θ : Type} (ext : Ext θ) (st : AgentState θ) (s : List ℚ) :
    ℚ × AgentState θ :=
  let normalized_state := normalize ext.sqrtFn st.normalizer s
  let a := (ext.sample st.params normalized_state st.rng).1
  (a, { st with rng := st.rng + 1 })

/-- The transition constructed and stored by `PPOAgent.update` (lines 152-176):
the normalizer is first updated with the raw state, that same state is then
normalized with the updated statistics, the critic's value is computed on it,
and the stored log-prob comes from a fresh `get_action_and_log_prob` sample at
the normalized state; the `action_tensor` built from the `action` argument is
never used. -/
def agentUpdateStored {θ : Type} (ext : Ext θ) (st : AgentState θ)
    (s : List ℚ) (a r : ℚ) (d : Bool) : Transition :=
  let norm2 := welfordUpdate st.normalizer s
  let normalized_state := normalize ext.sqrtFn norm2 s
  let value := ext.criticV st.params normalized_state
  let action_tensor := a
  let log_prob := (ext.sample st.params normalized_state st.rng).2
  { state := s, action := a, reward := r, value := value,
    log_prob := log_prob, done := d }

/-- `PPOAgent.update` (lines 140-183): store the transition (the outer `none`
models the buffer-full error), and when the episode is done and the buffer has
reached the minimum sample count, run `update_networks` on the next state;
otherwise return the empty dict. -/
def agentUpdate {θ : Type} (ext : Ext θ) (cfg : PPOConfig) (st : AgentState θ)
    (s : List ℚ) (a r : ℚ) (ns : List ℚ) (d : Bool) :
    Option (AgentState θ × Option Metrics) :=
  match bufStore st.bufferCapacity st.buffer (agentUpdateStored ext st s a r d) with
  | none => none
  | some buf2 =>
      let st2 := { st with
        normalizer := welfordUpdate st.normalizer s
        rng := st.rng + 1
        buffer := buf2 }
      if d ∧ minimumRequiredSamples cfg ≤ buf2.length then
        let res := update_networks ext cfg st2 ns
        some (res.1, res.2)
      else
        some (st2, some ([] : Metrics))

/-- A concrete instantiation of the external collaborators, used to evaluate
the model on concrete inputs: a critic that always predicts 0, degenerate
distributions, an identity permutation, identity square root and reward
normalization, and a constant exponential. -/
def extC : Ext Unit :=
  { criticV := fun _ _ => 0,
    logProbAt := fun _ _ _ => 0,
    entropyAt := fun _ _ => 0,
    sample := fun _ _ k => (0, (k : ℚ)),
    gradStep := fun p _ _ => p,
    randperm := fun _ n => List.range n,
    sqrtFn := fun q => q,
    expFn := fun _ => 1,
    rewardNorm := fun rs => rs }

/-- A concrete configuration: discount 1/2, clip 1/5, batch size 16 (so the
minimum required sample count is 32 and the 80% cutoff is 12.8), 3 epochs. -/
def cfgC : PPOConfig :=
  { gamma := 1 / 2, clip_range := 1 / 5, ent_coef := 0, vf_coef := 1 / 2,
    num_epochs := 3, batch_size := 16 }

/-- A concrete transition with reward 1. -/
def trC : Transition :=
  { state := [1], action := 0, reward := 1, value := 0, log_prob := 0, done := false }

/-- A concrete normalizer state over one dimension. -/
def normC : RunningNormalizer := { count := 1, mean := [0], m2 := [0] }

/-- An agent state holding 40 stored transitions. -/
def stC : AgentState Unit :=
  { normalizer := normC, params := (), buffer := List.replicate 40 trC,
    bufferCapacity := 64, actorSchedCount := 0, criticSchedCount := 0,
    actorLr := 1 / 1000, criticLr := 1 / 1000, optSteps := 0, rng := 0 }

/-- An agent state holding 32 stored transitions. -/
def stC9 : AgentState Unit :=
  { stC with buffer := List.replicate 32 trC }

/-- An agent state holding 10 stored transitions. -/
def stC4 : AgentState Unit :=
  { stC with buffer := List.replicate 10 trC }

lemma update_networks_normalizer {θ : Type} (ext : Ext θ) (cfg : PPOConfig)
    (st : AgentState θ) (fs : List ℚ) :
    (update_networks ext cfg st fs).1.normalizer = st.normalizer := by
  unfold update_networks
  by_cases h : st.buffer.length < minimumRequiredSamples cfg
  · rw [if_pos h]
  · rw [if_neg h]
    rfl

/-- C1: refuted as stated; the code has a bug.  The two `return` statements of
`_perform_update` sit inside the `for _ in range(self.num_epochs)` body, so
the function returns after the first pass.  Concretely, with 40 stored
transitions, batch size 16 and `num_epochs = 3`, the update reports
`updates_performed = 2` — the qualifying-minibatch count of a single pass
(2 full minibatches of 16; the remainder of size 8 is below 12.8 and is
skipped) — where the claim demands `num_epochs * 2 = 6`. -/
theorem updates_performed_single_pass_eval :
    (update_networks extC cfgC stC [0]).2.bind
      (fun m => m.lookup "updates_performed") = some (MVal.num 2) ∧
    cfgC.num_epochs = 3 ∧ stC.buffer.length = 40 ∧ cfgC.batch_size = 16 := by
  refine ⟨by with_unfolding_all decide, rfl, by decide, rfl⟩

/-- C3: an update requested with fewer than `minimum_required_samples`
(2 times the batch size) stored transitions is a complete no-op: the agent
state (buffer, parameters, optimizer-step count, scheduler counts, learning
rates, normalizer, RNG) is returned unchanged and the metrics dict reports
`skipped_reason = insufficient_data` instead of raising. -/
theorem update_networks_insufficient_data {θ : Type} (ext : Ext θ)
    (cfg : PPOConfig) (st : AgentState θ) (fs : List ℚ)
    (h : st.buffer.length < minimumRequiredSamples cfg) :
    update_networks ext cfg st fs =
      (st, some [("policy_loss", MVal.num 0), ("value_loss", MVal.num 0),
        ("entropy", MVal.num 0),
        ("skipped_reason", MVal.str "insufficient_data"),
        ("available_samples", MVal.num (st.buffer.length : ℚ))]) := by
  unfold update_networks
  rw [if_pos h]

/-- Witness for C3 at a concrete agent state with 10 stored transitions and
batch size 16. -/
theorem update_networks_insufficient_data_witness :
    stC4.buffer.length < minimumRequiredSamples cfgC ∧
    update_networks extC cfgC stC4 [0] =
      (stC4, some [("policy_loss", MVal.num 0), ("value_loss", MVal.num 0),
        ("entropy", MVal.num 0),
        ("skipped_reason", MVal.str "insufficient_data"),
        ("available_samples", MVal.num (stC4.buffer.length : ℚ))]) :=
  ⟨by decide, update_networks_insufficient_data extC cfgC stC4 [0] (by decide)⟩

/-- C4 counterexample: when an update runs and no minibatch qualifies (here a
direct `_perform_update` call over 10 stored transitions with target batch
size 16, so the single minibatch of size 10 is below the 12.8 cutoff), the
returned record is zero-filled but carries no `skipped_reason` entry,
contradicting the claim that a `skipped_reason` signal accompanies it. -/
theorem zero_qualifying_no_skipped_reason_cex :
    (performUpdate extC cfgC stC4 [0] 16).2.bind
      (fun m => m.lookup "updates_performed") = some (MVal.num 0) ∧
    (performUpdate extC cfgC stC4 [0] 16).2.bind
      (fun m => m.lookup "policy_loss") = some (MVal.num 0) ∧
    (performUpdate extC cfgC stC4 [0] 16).2.bind
      (fun m => m.lookup "skipped_reason") = none := by
  refine ⟨by with_unfolding_all decide, by with_unfolding_all decide,
    by with_unfolding_all decide⟩

/-- C7: every update invoked with at least `minimum_required_samples` stored
transitions steps each of the two learning-rate schedulers exactly once —
independently of how many minibatch steps ran — and clears the buffer, so the
buffer is empty after every successful update. -/
theorem schedulers_once_and_buffer_cleared {θ : Type} (ext : Ext θ)
    (cfg : PPOConfig) (st : AgentState θ) (fs : List ℚ)
    (h : minimumRequiredSamples cfg ≤ st.buffer.length) :
    (update_networks ext cfg st fs).1.buffer = [] ∧
    (update_networks ext cfg st fs).1.actorSchedCount = st.actorSchedCount + 1 ∧
    (update_networks ext cfg st fs).1.criticSchedCount = st.criticSchedCount + 1 := by
  unfold update_networks
  rw [if_neg (Nat.not_lt.mpr h)]
  exact ⟨rfl, rfl, rfl⟩

/-- Witness for C7 at a concrete agent state with 32 stored transitions and
batch size 16. -/
theorem schedulers_once_and_buffer_cleared_witness :
    minimumRequiredSamples cfgC ≤ stC9.buffer.length ∧
    ((update_networks extC cfgC stC9 [0]).1.buffer = [] ∧
     (update_networks extC cfgC stC9 [0]).1.actorSchedCount =
       stC9.actorSchedCount + 1 ∧
     (update_networks extC cfgC stC9 [0]).1.criticSchedCount =
       stC9.criticSchedCount + 1) :=
  ⟨by decide, schedulers_once_and_buffer_cleared extC cfgC stC9 [0] (by decide)⟩

/-- C8: `act` never mutates the normalizer statistics; `update` folds the raw
incoming state into the normalizer and the value it stores is the critic
applied to that same state normalized with the already-updated statistics; the
final state of `update` carries exactly that updated normalizer whether or not
a network update is triggered; and the network-update path itself never
touches the normalizer. -/
theorem normalizer_mutation_discipline :
    (∀ (θ : Type) (ext : Ext θ) (st : AgentState θ) (s : List ℚ),
       (act ext st s).2.normalizer = st.normalizer) ∧
    (∀ (θ : Type) (ext : Ext θ) (st : AgentState θ) (s : List ℚ) (a r : ℚ)
       (d : Bool),
       (agentUpdateStored ext st s a r d).value =
         ext.criticV st.params
           (normalize ext.sqrtFn (welfordUpdate st.normalizer s) s)) ∧
    (∀ (θ : Type) (ext : Ext θ) (cfg : PPOConfig) (st : AgentState θ)
       (s ns : List ℚ) (a r : ℚ) (d : Bool),
       (agentUpdate ext cfg st s a r ns d).map (fun p => p.1.normalizer) =
         (agentUpdate ext cfg st s a r ns d).map
           (fun _ => welfordUpdate st.normalizer s)) ∧
    (∀ (θ : Type) (ext : Ext θ) (cfg : PPOConfig) (st : AgentState θ)
       (fs : List ℚ),
       (update_networks ext cfg st fs).1.normalizer = st.normalizer) := by
  refine ⟨fun θ ext st s => rfl, fun θ ext st s a r d => rfl, ?_,
    fun θ ext cfg st fs => update_networks_normalizer ext cfg st fs⟩
  intro θ ext cfg st s ns a r d
  unfold agentUpdate
  generalize bufStore st.bufferCapacity st.buffer (agentUpdateStored ext st s a r d) = ob
  cases ob with
  | none => rfl
  | some buf2 =>
      by_cases hd : d ∧ minimumRequiredSamples cfg ≤ buf2.length
      · simp only [if_pos hd, Option.map_some']
        rw [update_networks_normalizer]
      · simp only [if_neg hd, Option.map_some']

/-- C9: refuted as stated; the code has a bug.  Line 312 of `PPOAgent.py`
fills the `advantage_mean` metric from `total_value_mean` (the accumulator
`total_advantage_mean` is computed but never read).  Concretely, with a critic
that predicts 0 everywhere and all rewards 1, both counted minibatches have
the same nonzero advantage mean, yet the update reports `advantage_mean = 0`
(the averaged value mean). -/
theorem advantage_mean_metric_eval :
    (update_networks extC cfgC stC9 [0]).2.bind
      (fun m => m.lookup "advantage_mean") = some (MVal.num 0) ∧
    (update_networks extC cfgC stC9 [0]).2.bind
      (fun m => m.lookup "value_mean") = some (MVal.num 0) ∧
    tmean (mbAdvRet extC cfgC () stC9.normalizer [0] (List.replicate 16 1)
      (List.replicate 16 0) (List.replicate 16 false)).1 ≠ 0 := by
  refine ⟨by with_unfolding_all decide, by with_unfolding_all decide,
    by with_unfolding_all decide⟩

/-- C10: the log-prob that `update` stores with a transition is the
log-probability of a fresh action sampled from the current policy at the
normalized stored state: it is identical for any two values of the `action`
argument, and equals the second component of the fresh
`get_action_and_log_prob` sample, while the stored action field is the
`action` argument itself. -/
theorem stored_log_prob_fresh_sample (θ : Type) (ext : Ext θ)
    (st : AgentState θ) (s : List ℚ) (a1 a2 r : ℚ) (d : Bool) :
    (agentUpdateStored ext st s a1 r d).log_prob =
      (agentUpdateStored ext st s a2 r d).log_prob ∧
    (agentUpdateStored ext st s a1 r d).log_prob =
      (ext.sample st.params
        (normalize ext.sqrtFn (welfordUpdate st.normalizer s) s) st.rng).2 ∧
    (agentUpdateStored ext st s a1 r d).action = a1 :=
  ⟨rfl, rfl, rfl⟩

lemma gaeAdv_eq_nv (gamma lam nv : ℚ) :
    ∀ (rs vs : List ℚ) (ds : List Bool), vs.length = rs.length →
      ds.length = rs.length →
      gaeAdv gamma lam nv rs vs ds =
        gaeNvAdv gamma lam rs vs (vs.drop 1 ++ [nv]) ds := by
  intro rs
  induction rs with
  | nil =>
      intro vs ds h1 h2
      rw [List.length_nil, List.length_eq_zero] at h1 h2
      subst h1
      subst h2
      rfl
  | cons r rs ih =>
      intro vs ds h1 h2
      cases vs with
      | nil => simp at h1
      | cons v vs =>
          cases ds with
          | nil => simp at h2
          | cons d ds =>
              have h1' : vs.length = rs.length := by simpa using h1
              have h2' : ds.length = rs.length := by simpa using h2
              cases vs with
              | nil =>
                  have hrs : rs = [] := by
                    rw [List.length_nil] at h1'
                    exact List.length_eq_zero.mp h1'.symm
                  subst hrs
                  have hds : ds = [] := List.length_eq_zero.mp h2'
                  subst hds
                  rfl
              | cons v2 vs2 =>
                  have ihh := ih (v2 :: vs2) ds h1' h2'
                  simp only [List.drop_succ_cons, List.drop_zero] at ihh
                  simp only [gaeAdv, gaeNvAdv, List.drop_succ_cons, List.drop_zero,
                    List.cons_append]
                  rw [ihh]
                  rfl

/-- C2: the per-minibatch advantages and returns of `_perform_update` are the
GAE backward recursion over the minibatch's rewards, (current) values and
dones, with the critic's value of the normalized final state as bootstrap, and
they coincide with the recursion driven by the next-value array obtained by
shifting the minibatch's value array one timestep and substituting the
bootstrap value at the last position. -/
theorem minibatch_gae_shifted_next_values {θ : Type} (ext : Ext θ)
    (cfg : PPOConfig) (p : θ) (norm : RunningNormalizer)
    (finalState rewards values : List ℚ) (dones : List Bool)
    (h1 : values.length = rewards.length) (h2 : dones.length = rewards.length) :
    mbAdvRet ext cfg p norm finalState rewards values dones =
      gaeFromNextValues rewards values
        (values.drop 1 ++ [ext.criticV p (normalize ext.sqrtFn norm finalState)])
        dones cfg.gamma 1 := by
  simp only [mbAdvRet, compute_gae, gaeFromNextValues]
  rw [gaeAdv_eq_nv cfg.gamma 1
    (ext.criticV p (normalize ext.sqrtFn norm finalState)) rewards values dones h1 h2]

/-- Witness for C2 at a concrete two-step minibatch. -/
theorem minibatch_gae_shifted_next_values_witness :
    (([(1 : ℚ), 2].length = [(3 : ℚ), 4].length) ∧
      ([true, false].length = [(3 : ℚ), 4].length)) ∧
    mbAdvRet extC cfgC () normC [0] [3, 4] [1, 2] [true, false] =
      gaeFromNextValues [3, 4] [1, 2]
        ([(1 : ℚ), 2].drop 1 ++ [extC.criticV () (normalize extC.sqrtFn normC [0])])
        [true, false] cfgC.gamma 1 :=
  ⟨⟨rfl, rfl⟩, minibatch_gae_shifted_next_values extC cfgC () normC [0] [3, 4]
    [1, 2] [true, false] rfl rfl⟩

lemma zipWith_min_clamp (f : ℚ → ℚ → ℚ) (c : ℚ → ℚ) :
    ∀ (ls os advs : List ℚ),
      List.zipWith min
        (List.zipWith (fun x a => x * a) (List.zipWith f ls os) advs)
        (List.zipWith (fun x a => x * a) ((List.zipWith f ls os).map c) advs) =
      zw3 (fun l o a => min (f l o * a) (c (f l o) * a)) ls os advs := by
  intro ls
  induction ls with
  | nil => intro os advs; rfl
  | cons l ls ih =>
      intro os advs
      cases os with
      | nil => rfl
      | cons o os =>
          cases advs with
          | nil => rfl
          | cons a advs =>
              simp only [List.zipWith_cons_cons, List.map_cons, zw3]
              rw [ih]

/-- C5: the policy loss computed per minibatch is the negated mean, over the
minibatch, of `min(ratio * advantage, clamp(ratio, 1-eps, 1+eps) * advantage)`
with `ratio = exp(new_log_prob - old_log_prob)`. -/
theorem policy_loss_clipped_formula (e : ℚ → ℚ) (eps : ℚ)
    (log_probs old_log_probs advantages : List ℚ) :
    policyLossOf e eps log_probs old_log_probs advantages =
      - tmean (zw3 (fun lp olp a =>
          min (e (lp - olp) * a) (clampQ (1 - eps) (1 + eps) (e (lp - olp)) * a))
        log_probs old_log_probs advantages) := by
  simp only [policyLossOf]
  rw [zipWith_min_clamp (fun lp olp => e (lp - olp)) (clampQ (1 - eps) (1 + eps))
    log_probs old_log_probs advantages]

lemma zipWith_max_value (eps : ℚ) :
    ∀ (vals olds rets : List ℚ),
      List.zipWith max
        (List.zipWith (fun v ret => (v - ret) ^ 2) vals rets)
        (List.zipWith (fun vpc ret => (vpc - ret) ^ 2)
          (List.zipWith (fun ov v => ov + clampQ (-eps) eps (v - ov)) olds vals)
          rets) =
      zw3 (fun v ov ret =>
        max ((v - ret) ^ 2) ((clampQ (-eps) eps (v - ov) + ov - ret) ^ 2))
        vals olds rets := by
  intro vals
  induction vals with
  | nil => intro olds rets; rfl
  | cons v vals ih =>
      intro olds rets
      cases olds with
      | nil =>
          cases rets with
          | nil => rfl
          | cons ret rets => rfl
      | cons ov olds =>
          cases rets with
          | nil => rfl
          | cons ret rets =>
              simp only [List.zipWith_cons_cons, zw3]
              rw [ih, add_comm ov (clampQ (-eps) eps (v - ov))]

/-- C6: the value loss computed per minibatch is
`0.5 * mean(max((V - return)^2, (clamp(V - V_old, -eps, eps) + V_old - return)^2))`,
and the total loss handed to the backward pass is
`policy_loss + vf_coef * value_loss - ent_coef * entropy`. -/
theorem value_loss_and_total_loss_formula :
    (∀ (eps : ℚ) (values old_values returns1 : List ℚ),
       valueLossOf eps values old_values returns1 =
         (1 / 2) * tmean (zw3 (fun v ov ret =>
           max ((v - ret) ^ 2) ((clampQ (-eps) eps (v - ov) + ov - ret) ^ 2))
           values old_values returns1)) ∧
    (∀ (cfg : PPOConfig) (pl vl ent : ℚ),
       totalLossOf cfg pl vl ent = pl + cfg.vf_coef * vl - cfg.ent_coef * ent) := by
  constructor
  · intro eps values old_values returns1
    simp only [valueLossOf]
    rw [zipWith_max_value eps values old_values returns1]
  · intro cfg pl vl ent
    rfl

lemma chunkStarts_zero (bs : ℕ) (hbs : 1 ≤ bs) : chunkStarts 0 bs = [] := by
  unfold chunkStarts
  have h : (0 + bs - 1) / bs = 0 := Nat.div_eq_of_lt (by omega)
  rw [h]
  rfl

lemma chunkStarts_one (n bs : ℕ) (h1 : 1 ≤ n) (h2 : n ≤ bs) :
    chunkStarts n bs = [0] := by
  unfold chunkStarts
  have h : (n + bs - 1) / bs = 1 := by
    apply Nat.div_eq_of_lt_le
    · omega
    · omega
  rw [h]
  show List.map (fun i => i * bs) [0] = [0]
  rw [List.map_cons, List.map_nil, Nat.zero_mul]

lemma minibatch_fold_all_skipped {θ : Type} (ext : Ext θ) (cfg : PPOConfig)
    (data : BufferData) (normalized_states : List (List ℚ))
    (finalState : List ℚ) (norm : RunningNormalizer) (indices : List ℕ)
    (n bs : ℕ) (init : PassState θ) (hbs : 1 ≤ bs) (hn : n ≤ bs)
    (hq : ((n : ℕ) : ℚ) < (bs : ℚ) * (4 / 5)) :
    (chunkStarts n bs).foldl
      (minibatchStep ext cfg data normalized_states finalState norm indices n bs)
      init = init := by
  rcases Nat.eq_zero_or_pos n with h0 | h1
  · subst h0
    rw [chunkStarts_zero bs hbs]
    rfl
  · rw [chunkStarts_one n bs h1 hn]
    show minibatchStep ext cfg data normalized_states finalState norm indices
      n bs init 0 = init
    simp only [minibatchStep]
    have hcond : ((min (0 + bs) n - 0 : ℕ) : ℚ) < (bs : ℚ) * (4 / 5) := by
      rw [show min (0 + bs) n - 0 = n by omega]
      exact hq
    rw [if_pos hcond]

/-- C4 (amended): when an update pass runs and no minibatch qualifies (all
stored data fits in a single minibatch below the 80% cutoff),
`_perform_update` returns the zero-filled metrics record — zero losses, zero
`updates_performed`, zero value/advantage statistics, the target batch size
and the current learning rate — with no `skipped_reason` signal, and the agent
state changes only in the RNG position (one `randperm` draw). -/
theorem zero_qualifying_zero_metrics {θ : Type} (ext : Ext θ) (cfg : PPOConfig)
    (st : AgentState θ) (finalState : List ℚ) (bs : ℕ)
    (he : 1 ≤ cfg.num_epochs) (hbs : 1 ≤ bs) (hn : st.buffer.length ≤ bs)
    (hq : ((st.buffer.length : ℕ) : ℚ) < (bs : ℚ) * (4 / 5)) :
    performUpdate ext cfg st finalState bs =
      ({ st with rng := st.rng + 1 }, some (zeroMetrics bs st.actorLr)) := by
  obtain ⟨k, hk⟩ := Nat.exists_eq_succ_of_ne_zero (Nat.one_le_iff_ne_zero.mp he)
  simp only [performUpdate]
  rw [hk]
  simp only [epochLoop]
  rw [minibatch_fold_all_skipped ext cfg _ _ finalState st.normalizer _
    st.buffer.length bs _ hbs hn hq]
  have hc : (⟨st.params, st.optSteps, 0, 0, 0, 0, 0, 0, 0, 0⟩ :
      PassState θ).update_count = 0 := rfl
  rw [if_pos hc]

/-- Witness for the amended C4 at 10 stored transitions and target batch size
16 (the single minibatch of 10 is below the 12.8 cutoff). -/
theorem zero_qualifying_zero_metrics_witness :
    (1 ≤ cfgC.num_epochs ∧ 1 ≤ 16 ∧ stC4.buffer.length ≤ 16 ∧
      ((stC4.buffer.length : ℕ) : ℚ) < ((16 : ℕ) : ℚ) * (4 / 5)) ∧
    performUpdate extC cfgC stC4 [0] 16 =
      ({ stC4 with rng := stC4.rng + 1 }, some (zeroMetrics 16 stC4.actorLr)) :=
  ⟨⟨by decide, by decide, by decide, by with_unfolding_all decide⟩,
    zero_qualifying_zero_metrics extC cfgC stC4 [0] 16 (by decide) (by decide)
      (by decide) (by with_unfolding_all decide)⟩

end RegenPPO
